import Mathlib

/-!
Shallow embedding of the kangkyu/hume Go client library, for checking the
natural-language specification against the code.

The repository contains several iterations of the same client:
* `src/unnamed/part_002` — tagged-union dispatcher variant (typed response
  structs `ChatMetadata`, `AssistantMessage`, `AssistantEnd`, `AudioResponse`,
  a `readResponses` loop that pre-parses the `type` discriminant and discards
  malformed frames), plus `CreateMessage` and `ConvertPCMtoWAV`;
* `src/hume_ai_api.go` — flat-struct variant (`VoiceChatResponse` struct, a
  `readResponses` loop that disconnects on a JSON parse error), `StartChat`,
  `SendChatMessage`, `SendAudioData`, `StopVoiceChat`;
* `src/unnamed/part_000` — `CreateMessage` and `ConvertPCMtoWAV` alone.

JSON documents are embedded as an inductive `Json` value (numbers restricted
to integer numerals, which covers every frame shape the code exchanges);
bytes that fail JSON syntax are modelled as `Option.none` at the frame level.
`encoding/json` field decoding is mirrored per Go semantics: a missing field
or JSON `null` leaves the zero value, a type-mismatched field is an error,
unknown object keys are ignored, and for duplicate keys the last one wins.
-/

namespace Hume

/-- JSON value model. `num` carries integer numerals only; every frame the
client encodes or the tests exchange uses integer numbers. -/
inductive Json where
  | null : Json
  | bool (b : Bool) : Json
  | num (n : Int) : Json
  | str (s : String) : Json
  | arr (elems : List Json) : Json
  | obj (fields : List (String × Json)) : Json

/-- Field lookup in a JSON object, mirroring Go `encoding/json` decoding
where, for duplicate keys, the value decoded last wins. -/
def lookupField : List (String × Json) → String → Option Json
  | [], _ => none
  | (k, v) :: rest, key =>
    match lookupField rest key with
    | some r => some r
    | none => if k = key then some v else none

/-- Go `encoding/json` decode of a `string` struct field: missing or `null`
leaves the zero value `""`; a JSON string is taken verbatim; any other JSON
value is an `UnmarshalTypeError`. -/
def getStringField (fields : List (String × Json)) (key : String) : Except Unit String :=
  match lookupField fields key with
  | none => .ok ""
  | some (.str s) => .ok s
  | some .null => .ok ""
  | some _ => .error ()

/-- Go `encoding/json` decode of an `int` struct field. -/
def getIntField (fields : List (String × Json)) (key : String) : Except Unit Int :=
  match lookupField fields key with
  | none => .ok 0
  | some (.num n) => .ok n
  | some .null => .ok 0
  | some _ => .error ()

/-- Go `encoding/json` decode of a `bool` struct field. -/
def getBoolField (fields : List (String × Json)) (key : String) : Except Unit Bool :=
  match lookupField fields key with
  | none => .ok false
  | some (.bool b) => .ok b
  | some .null => .ok false
  | some _ => .error ()

/-- `ChatMetadata` struct of `src/unnamed/part_002` lines 25-29: fields
`type`, `chat_group_id`, `chat_id`. -/
structure ChatMetadata where
  type : String
  chatGroupID : String
  chatID : String

/-- `Message` struct of `src/unnamed/part_002` lines 60-64. -/
structure Message where
  role : String
  content : String

/-- `AssistantMessage` struct of `src/unnamed/part_002` lines 33-38 (the
`Models` field is commented out in the source). -/
structure AssistantMessage where
  type : String
  message : Message
  fromText : Bool

/-- `AudioResponse` struct of `src/unnamed/part_002` lines 42-50. The
`RawMessage` debugging field carries the tag `json:"-"`, so it is neither
marshalled nor filled by unmarshalling; it is modelled as `Option Json`. -/
structure AudioResponse where
  type : String
  id : String
  index : Int
  data : String
  customSessionId : String
  rawMessage : Option Json

/-- `AssistantEnd` struct of `src/unnamed/part_002` lines 54-56. -/
structure AssistantEnd where
  type : String

/-- Go `json.Marshal` of `ChatMetadata` (struct-order fields, no omitempty). -/
def ChatMetadata.toJson (c : ChatMetadata) : Json :=
  .obj [("type", .str c.type), ("chat_group_id", .str c.chatGroupID),
        ("chat_id", .str c.chatID)]

/-- Go `json.Marshal` of `Message`. -/
def Message.toJson (m : Message) : Json :=
  .obj [("role", .str m.role), ("content", .str m.content)]

/-- Go `json.Marshal` of `AssistantMessage`. -/
def AssistantMessage.toJson (a : AssistantMessage) : Json :=
  .obj [("type", .str a.type), ("message", a.message.toJson),
        ("from_text", .bool a.fromText)]

/-- Go `json.Marshal` of `AudioResponse`: `custom_session_id` carries
`omitempty`, and `RawMessage` (`json:"-"`) is never emitted. -/
def AudioResponse.toJson (a : AudioResponse) : Json :=
  .obj ([("type", .str a.type), ("id", .str a.id), ("index", .num a.index),
         ("data", .str a.data)] ++
        (if a.customSessionId = "" then []
         else [("custom_session_id", .str a.customSessionId)]))

/-- Go `json.Marshal` of `AssistantEnd`. -/
def AssistantEnd.toJson (a : AssistantEnd) : Json :=
  .obj [("type", .str a.type)]

/-- Go `json.Unmarshal` into `ChatMetadata`: the document must be an object
(or `null`, which leaves the zero struct). -/
def ChatMetadata.fromJson : Json → Except Unit ChatMetadata
  | .null => .ok ⟨"", "", ""⟩
  | .obj fields => do
    let t ← getStringField fields "type"
    let g ← getStringField fields "chat_group_id"
    let c ← getStringField fields "chat_id"
    .ok ⟨t, g, c⟩
  | _ => .error ()

/-- Go `json.Unmarshal` decode of the nested `Message` struct field. -/
def getMessageField (fields : List (String × Json)) : Except Unit Message :=
  match lookupField fields "message" with
  | none => .ok ⟨"", ""⟩
  | some .null => .ok ⟨"", ""⟩
  | some (.obj mf) => do
    let r ← getStringField mf "role"
    let c ← getStringField mf "content"
    .ok ⟨r, c⟩
  | some _ => .error ()

/-- Go `json.Unmarshal` into `AssistantMessage`. -/
def AssistantMessage.fromJson : Json → Except Unit AssistantMessage
  | .null => .ok ⟨"", ⟨"", ""⟩, false⟩
  | .obj fields => do
    let t ← getStringField fields "type"
    let m ← getMessageField fields
    let f ← getBoolField fields "from_text"
    .ok ⟨t, m, f⟩
  | _ => .error ()

/-- Go `json.Unmarshal` into `AudioResponse`; `RawMessage` is skipped
(`json:"-"`), so decoding always leaves it at its zero value. -/
def AudioResponse.fromJson : Json → Except Unit AudioResponse
  | .null => .ok ⟨"", "", 0, "", "", none⟩
  | .obj fields => do
    let t ← getStringField fields "type"
    let i ← getStringField fields "id"
    let idx ← getIntField fields "index"
    let d ← getStringField fields "data"
    let s ← getStringField fields "custom_session_id"
    .ok ⟨t, i, idx, d, s, none⟩
  | _ => .error ()

/-- Go `json.Unmarshal` into `AssistantEnd`. -/
def AssistantEnd.fromJson : Json → Except Unit AssistantEnd
  | .null => .ok ⟨""⟩
  | .obj fields => do
    let t ← getStringField fields "type"
    .ok ⟨t⟩
  | _ => .error ()

/-- `VoiceChatResponse` interface of `src/unnamed/part_002`: the closed set of
typed responses the dispatcher can hand to `OnResponse`. -/
inductive VCResp where
  | metadata (c : ChatMetadata)
  | assistant (a : AssistantMessage)
  | assistantEnd (e : AssistantEnd)
  | audio (a : AudioResponse)

/-- Discriminant pre-parse of `src/unnamed/part_002` lines 489-495:
`json.Unmarshal(message, &typeCheck)` into `struct{ Type string }`.
A document that is not an object (and not `null`) fails; an object without a
`type` key, or `null`, yields the zero value `""`. -/
def typeCheckJson : Json → Except Unit String
  | .null => .ok ""
  | .obj fields => getStringField fields "type"
  | _ => .error ()

/-- Dispatch switch of `src/unnamed/part_002` lines 497-530: route on the
pre-parsed discriminant, run the full typed decode, and yield the response to
deliver; `none` when the discriminant is unknown or the typed decode fails. -/
def dispatchVoice (t : String) (j : Json) : Option VCResp :=
  if t = "chat_metadata" then
    match ChatMetadata.fromJson j with
    | .ok r => some (.metadata r)
    | .error _ => none
  else if t = "assistant_message" then
    match AssistantMessage.fromJson j with
    | .ok r => some (.assistant r)
    | .error _ => none
  else if t = "assistant_end" then
    match AssistantEnd.fromJson j with
    | .ok r => some (.assistantEnd r)
    | .error _ => none
  else if t = "audio_output" then
    match AudioResponse.fromJson j with
    | .ok r => some (.audio r)
    | .error _ => none
  else none

/-- Per-frame handling of the tagged-union receive loop
(`src/unnamed/part_002` lines 488-534): `some r` exactly when
`handler.OnResponse(r)` is invoked for the frame; `none` when the frame is
discarded (non-JSON bytes, failed discriminant pre-parse, failed typed
decode, or unknown discriminant). An inbound frame is `Option Json`: `none`
stands for bytes that fail JSON syntax. -/
def handleFrame : Option Json → Option VCResp
  | none => none
  | some j =>
    match typeCheckJson j with
    | .error _ => none
    | .ok t => dispatchVoice t j

/-- One observation of the receive loop per iteration: external cancellation,
a failed `ReadMessage` (peer close, transport error, or the local `stop`
closing the socket under the reader), or a delivered frame. -/
inductive Event where
  | cancel : Event
  | readErr : Event
  | recv (m : Option Json) : Event

/-- Reason recorded with the terminal `OnDisconnect` callback. -/
inductive DisconnectReason where
  | cancelled : DisconnectReason
  | readError : DisconnectReason
  | parseError : DisconnectReason

/-- Handler invocation emitted by the tagged-union receive loop. -/
inductive HOut where
  | response (r : VCResp)
  | disconnect (r : DisconnectReason)

/-- `Client.readResponses` of `src/unnamed/part_002` lines 465-537 as a trace
function over the stream of read observations: cancellation and read errors
invoke `OnDisconnect` once and return; a frame either yields one
`OnResponse` or is silently discarded, and the loop continues. -/
def processVoice : List Event → List HOut
  | [] => []
  | .cancel :: _ => [.disconnect .cancelled]
  | .readErr :: _ => [.disconnect .readError]
  | .recv m :: rest =>
    match handleFrame m with
    | some r => .response r :: processVoice rest
    | none => processVoice rest

/-- `VoiceChatResponse` flat struct of `src/hume_ai_api.go` lines 58-64;
`Emotions map[string]float64` is modelled as an association list whose
values are the integer numerals of the `Json` embedding. -/
structure FlatVoiceChatResponse where
  type : String
  text : String
  emotions : List (String × Int)
  error : String
  isFinal : Bool

/-- Go `json.Unmarshal` decode of the `map[string]float64` object payload. -/
def decodeNumMap : List (String × Json) → Except Unit (List (String × Int))
  | [] => .ok []
  | (k, .num n) :: rest => do
    let r ← decodeNumMap rest
    .ok ((k, n) :: r)
  | _ => .error ()

/-- Go `json.Unmarshal` decode of the `Emotions` map field. -/
def getEmotionsField (fields : List (String × Json)) : Except Unit (List (String × Int)) :=
  match lookupField fields "emotions" with
  | none => .ok []
  | some .null => .ok []
  | some (.obj kvs) => decodeNumMap kvs
  | some _ => .error ()

/-- `json.Unmarshal(message, &response)` of `src/hume_ai_api.go` line 571
into the flat `VoiceChatResponse` struct; `none` stands for inbound bytes
that fail JSON syntax. -/
def unmarshalFlat : Option Json → Except Unit FlatVoiceChatResponse
  | none => .error ()
  | some .null => .ok ⟨"", "", [], "", false⟩
  | some (.obj fields) => do
    let t ← getStringField fields "type"
    let x ← getStringField fields "text"
    let e ← getEmotionsField fields
    let er ← getStringField fields "error"
    let f ← getBoolField fields "is_final"
    .ok ⟨t, x, e, er, f⟩
  | some _ => .error ()

/-- Handler invocation emitted by the flat-struct receive loop. -/
inductive FlatOut where
  | response (r : FlatVoiceChatResponse)
  | disconnect (r : DisconnectReason)

/-- `Client.readResponses` of `src/hume_ai_api.go` lines 548-579 as a trace
function: on a JSON decode failure it invokes
`handler.OnDisconnect(fmt.Errorf("parsing response: ..."))` and returns,
terminating the session. -/
def processFlat : List Event → List FlatOut
  | [] => []
  | .cancel :: _ => [.disconnect .cancelled]
  | .readErr :: _ => [.disconnect .readError]
  | .recv m :: rest =>
    match unmarshalFlat m with
    | .error _ => [.disconnect .parseError]
    | .ok r => .response r :: processFlat rest

/-- Tests whether a read observation terminates the receive loop. -/
def Event.isTerminal : Event → Bool
  | .cancel => true
  | .readErr => true
  | .recv _ => false

/-- Tests whether a loop output is the terminal `OnDisconnect` callback. -/
def HOut.isDisconnect : HOut → Bool
  | .disconnect _ => true
  | .response _ => false

/-! ### Session-manager state model

The `Client` struct's only connection state is the single field
`wsConn *websocket.Conn`, guarded by `mu sync.Mutex`; it is modelled as an
`Option Conn`. The outcomes of the fallible transport operations
(`dialer.DialContext`, `WriteMessage`, `Close`) are explicit parameters, so
each lock-protected method becomes a pure function from the stored handle and
the transport outcomes to its returned error and the new stored handle. -/

/-- An established WebSocket connection handle (`*websocket.Conn`). -/
structure Conn where
  id : Nat
deriving DecidableEq

/-- Errors returned by the session-manager methods. -/
inductive GoErr where
  | alreadyActive : GoErr
  | parseURLFailed : GoErr
  | connectFailed : GoErr
  | notConnected : GoErr
  | sendCloseFailed : GoErr
  | closeFailed : GoErr
  | writeFailed : GoErr
deriving DecidableEq

/-- `Client.StartVoiceChat` of `src/unnamed/part_002` lines 370-431 (the
variant of `src/hume_ai_api.go` lines 451-515 guards identically): under the
lock, if `c.wsConn != nil` it returns the "voice chat session already active"
error leaving the handle untouched; otherwise URL construction or dialing may
fail (handle stays `nil`); on success the new handle is stored. -/
def startVoiceChat (ws : Option Conn) (urlOk : Bool) (dial : Except Unit Conn) :
    Except GoErr Unit × Option Conn :=
  match ws with
  | some c => (.error .alreadyActive, some c)
  | none =>
    if urlOk then
      match dial with
      | .error _ => (.error .connectFailed, none)
      | .ok c => (.ok (), some c)
    else (.error .parseURLFailed, none)

/-- `Client.StartChat` of `src/hume_ai_api.go` lines 103-142: it performs no
already-active check — it parses the URL, dials, and on success assigns
`c.wsConn = conn` unconditionally, overwriting whatever handle was stored. -/
def startChat (ws : Option Conn) (urlOk : Bool) (dial : Except Unit Conn) :
    Except GoErr Unit × Option Conn :=
  if urlOk then
    match dial with
    | .error _ => (.error .connectFailed, ws)
    | .ok c => (.ok (), some c)
  else (.error .parseURLFailed, ws)

/-- `Client.StopVoiceChat` of `src/unnamed/part_002` lines 447-463 (identical
in `src/hume_ai_api.go` lines 530-546 and `src/unnamed/part_003`): with no
handle it returns `nil`; otherwise it writes the normal-closure control frame
— if that write errors, it returns the wrapped error immediately, without
closing the connection or clearing the handle — and only then calls `Close`,
sets `c.wsConn = nil`, and returns the `Close` result. -/
def stopVoiceChat (ws : Option Conn) (writeCloseOk : Bool) (closeOk : Bool) :
    Except GoErr Unit × Option Conn :=
  match ws with
  | none => (.ok (), none)
  | some c =>
    if writeCloseOk then
      ((if closeOk then .ok () else .error .closeFailed), none)
    else (.error .sendCloseFailed, some c)

/-- A frame written to the connection by a send operation. -/
inductive OutFrame where
  | binary (data : List Nat)
  | jsonText (j : Json)

/-- `Client.SendAudioData` of `src/hume_ai_api.go` lines 518-527: under the
lock, error if no handle, else one `WriteMessage(websocket.BinaryMessage,
data)` call; the stored handle is never modified. The third component lists
the frames written to the connection. -/
def sendAudioData (ws : Option Conn) (data : List Nat) (writeOk : Bool) :
    Except GoErr Unit × Option Conn × List OutFrame :=
  match ws with
  | none => (.error .notConnected, none, [])
  | some c => ((if writeOk then .ok () else .error .writeFailed), some c, [.binary data])

/-- `Client.SendAudioData` of `src/unnamed/part_002` lines 434-444: snapshots
the handle under the lock, errors if it is `nil`, else one
`WriteJSON(message)` call with the caller's structured message. -/
def sendAudioDataJson (ws : Option Conn) (msg : Json) (writeOk : Bool) :
    Except GoErr Unit × Option Conn × List OutFrame :=
  match ws with
  | none => (.error .notConnected, none, [])
  | some c => ((if writeOk then .ok () else .error .writeFailed), some c, [.jsonText msg])

/-- `ChatMessage` struct of `src/hume_ai_api.go` lines 80-84. -/
structure ChatMessage where
  type : String
  content : String
  error : String

/-- Go `json.Marshal` of `ChatMessage` (`content` and `error` are
`omitempty`). -/
def ChatMessage.toJson (m : ChatMessage) : Json :=
  .obj ([("type", .str m.type)] ++
        (if m.content = "" then [] else [("content", .str m.content)]) ++
        (if m.error = "" then [] else [("error", .str m.error)]))

/-- `Client.SendChatMessage` of `src/hume_ai_api.go` lines 145-159: under the
lock, error if no handle, else builds `ChatMessage{Type: "message", Content:
message}` and makes one `WriteJSON(msg)` call. -/
def sendChatMessage (ws : Option Conn) (message : String) (writeOk : Bool) :
    Except GoErr Unit × Option Conn × List OutFrame :=
  match ws with
  | none => (.error .notConnected, none, [])
  | some c =>
    ((if writeOk then .ok () else .error .writeFailed), some c,
     [.jsonText (ChatMessage.toJson ⟨"message", message, ""⟩)])

/-! ### WAV encoder (`ConvertPCMtoWAV`, `src/unnamed/part_000` lines 49-79)

Byte strings are `List Nat` with each element a byte value; `binary.Write`
with `uint32`/`uint16` little-endian is the corresponding byte split, with
Go's integer-to-unsigned conversion truncating modulo the width. -/

/-- Little-endian bytes of `uint16(n)`. -/
def u16le (n : Nat) : List Nat :=
  [n % 256, n / 256 % 256]

/-- Little-endian bytes of `uint32(n)`. -/
def u32le (n : Nat) : List Nat :=
  [n % 256, n / 256 % 256, n / 65536 % 256, n / 16777216 % 256]

/-- `ConvertPCMtoWAV`: the 44-byte RIFF/WAVE header (`"RIFF"`, chunk size
`totalSize-8` with `totalSize = dataSize+44`, `"WAVE"`, `"fmt "` sub-chunk of
size 16 with PCM format 1, 1 channel, sample rate 16000, byte rate 32000,
block align 2, 16 bits per sample, `"data"`, `dataSize`) followed by the PCM
bytes unchanged. String writes are their ASCII byte values. -/
def convertPCMtoWAV (pcmData : List Nat) : List Nat :=
  let dataSize := pcmData.length
  let totalSize := dataSize + 44
  [82, 73, 70, 70] ++ u32le (totalSize - 8) ++ [87, 65, 86, 69] ++
  [102, 109, 116, 32] ++ u32le 16 ++ u16le 1 ++ u16le 1 ++
  u32le 16000 ++ u32le 32000 ++ u16le 2 ++ u16le 16 ++
  [100, 97, 116, 97] ++ u32le dataSize ++ pcmData

/-- The little-endian 32-bit value stored at byte offset `off`. -/
def readU32le (bs : List Nat) (off : Nat) : Nat :=
  bs.getD off 0 + 256 * bs.getD (off + 1) 0 + 65536 * bs.getD (off + 2) 0 +
    16777216 * bs.getD (off + 3) 0

/-- The little-endian 16-bit value stored at byte offset `off`. -/
def readU16le (bs : List Nat) (off : Nat) : Nat :=
  bs.getD off 0 + 256 * bs.getD (off + 1) 0

/-! ### `CreateMessage` (`src/unnamed/part_000` lines 16-47, duplicated at
`src/unnamed/part_002` lines 544-575)

The payload normalizer depends on two Go standard-library functions:
`strconv.Quote` and `json.Valid`. Both are modelled at byte level
(`List Nat`), restricted to ASCII byte strings (every byte below 0x80), on
which `strconv.Quote`'s rune decoding and `unicode.IsPrint` are fully
determined: printable means 0x20-0x7e, and non-printable bytes take the named
Go escapes `\a \b \f \n \r \t \v` or the hexadecimal escape `\xHH`. -/

/-- Lower-case hexadecimal digit byte for a value below 16 (Go's `%x`). -/
def hexDigitByte (n : Nat) : Nat :=
  if n < 10 then 48 + n else 87 + n

/-- Go `strconv.Quote` treatment of one ASCII byte: `"` and `\` get a
backslash; printable bytes (0x20-0x7e) pass through; `\a \b \f \n \r \t \v`
for their control characters; `\xHH` for the remaining bytes below 0x20 and
for 0x7f. -/
def quoteChar (c : Nat) : List Nat :=
  if c = 34 || c = 92 then [92, c]
  else if 32 ≤ c && c ≤ 126 then [c]
  else if c = 7 then [92, 97]
  else if c = 8 then [92, 98]
  else if c = 12 then [92, 102]
  else if c = 10 then [92, 110]
  else if c = 13 then [92, 114]
  else if c = 9 then [92, 116]
  else if c = 11 then [92, 118]
  else [92, 120, hexDigitByte (c / 16), hexDigitByte (c % 16)]

/-- Go `strconv.Quote` of an ASCII byte string: a double quote, each byte's
escape, a double quote. -/
def goQuote (s : List Nat) : List Nat :=
  34 :: s.flatMap quoteChar ++ [34]

/-- JSON whitespace bytes accepted by Go's scanner (space, tab, LF, CR). -/
def isWSByte (c : Nat) : Bool :=
  c = 32 || c = 9 || c = 10 || c = 13

/-- Drops leading JSON whitespace. -/
def skipWS : List Nat → List Nat
  | [] => []
  | c :: rest => if isWSByte c then skipWS rest else c :: rest

/-- ASCII decimal digit test. -/
def isDigitByte (c : Nat) : Bool :=
  48 ≤ c && c ≤ 57

/-- ASCII hexadecimal digit test. -/
def isHexByte (c : Nat) : Bool :=
  isDigitByte c || (97 ≤ c && c ≤ 102) || (65 ≤ c && c ≤ 70)

/-- Consumes a run of decimal digits. -/
def scanDigits : List Nat → List Nat
  | [] => []
  | c :: rest => if isDigitByte c then scanDigits rest else c :: rest

/-- Consumes one or more decimal digits. -/
def scanDigits1 : List Nat → Option (List Nat)
  | [] => none
  | c :: rest => if isDigitByte c then some (scanDigits rest) else none

/-- JSON integer part after an optional minus: `0` or a nonzero digit
followed by digits. -/
def scanIntPart : List Nat → Option (List Nat)
  | [] => none
  | c :: rest =>
    if c = 48 then some rest
    else if isDigitByte c then some (scanDigits rest)
    else none

/-- Optional JSON fraction part. -/
def scanFracPart : List Nat → Option (List Nat)
  | 46 :: rest => scanDigits1 rest
  | l => some l

/-- Optional JSON exponent part. -/
def scanExpPart : List Nat → Option (List Nat)
  | [] => some []
  | c :: rest =>
    if c = 101 || c = 69 then
      match rest with
      | s :: rest2 => if s = 43 || s = 45 then scanDigits1 rest2 else scanDigits1 rest
      | [] => none
    else some (c :: rest)

/-- JSON string body after the opening quote: bytes at or above 0x20 other
than `"` and `\` pass; escapes are limited to the JSON set
(quote, backslash, slash, `b f n r t`, and `\uXXXX`); raw control bytes are
rejected. Returns the input remaining after the closing quote. -/
def scanStringBody : List Nat → Option (List Nat)
  | [] => none
  | c :: rest =>
    if c = 34 then some rest
    else if c = 92 then
      match rest with
      | [] => none
      | e :: rest2 =>
        if e = 34 || e = 92 || e = 47 || e = 98 || e = 102 || e = 110 || e = 114 || e = 116 then
          scanStringBody rest2
        else if e = 117 then
          match rest2 with
          | h1 :: h2 :: h3 :: h4 :: rest3 =>
            if isHexByte h1 && isHexByte h2 && isHexByte h3 && isHexByte h4 then
              scanStringBody rest3
            else none
          | _ => none
        else none
    else if c < 32 then none
    else scanStringBody rest

mutual

/-- One JSON value (no leading whitespace); fuel bounds recursion depth. -/
def scanValue : Nat → List Nat → Option (List Nat)
  | 0, _ => none
  | _ + 1, [] => none
  | fuel + 1, c :: rest =>
    if c = 34 then scanStringBody rest
    else if c = 116 then
      match rest with
      | 114 :: 117 :: 101 :: r => some r
      | _ => none
    else if c = 102 then
      match rest with
      | 97 :: 108 :: 115 :: 101 :: r => some r
      | _ => none
    else if c = 110 then
      match rest with
      | 117 :: 108 :: 108 :: r => some r
      | _ => none
    else if c = 45 then
      match scanIntPart rest with
      | none => none
      | some r =>
        match scanFracPart r with
        | none => none
        | some r2 => scanExpPart r2
    else if isDigitByte c then
      match scanIntPart (c :: rest) with
      | none => none
      | some r =>
        match scanFracPart r with
        | none => none
        | some r2 => scanExpPart r2
    else if c = 91 then
      match skipWS rest with
      | 93 :: r => some r
      | l => scanElems fuel l
    else if c = 123 then
      match skipWS rest with
      | 125 :: r => some r
      | l => scanMembers fuel l
    else none

/-- Array elements after the first value position; expects a value, then a
comma and further elements or the closing bracket. -/
def scanElems : Nat → List Nat → Option (List Nat)
  | 0, _ => none
  | fuel + 1, l =>
    match scanValue fuel l with
    | none => none
    | some r =>
      match skipWS r with
      | 44 :: r2 => scanElems fuel (skipWS r2)
      | 93 :: r2 => some r2
      | _ => none

/-- Object members: a string key, a colon, a value, then a comma and further
members or the closing brace. -/
def scanMembers : Nat → List Nat → Option (List Nat)
  | 0, _ => none
  | fuel + 1, l =>
    match l with
    | 34 :: r =>
      match scanStringBody r with
      | none => none
      | some r2 =>
        match skipWS r2 with
        | 58 :: r3 =>
          match scanValue fuel (skipWS r3) with
          | none => none
          | some r4 =>
            match skipWS r4 with
            | 44 :: r5 => scanMembers fuel (skipWS r5)
            | 125 :: r5 => some r5
            | _ => none
        | _ => none
    | _ => none

end

/-- Model of Go `json.Valid`: one JSON value surrounded by whitespace and
nothing else. The fuel `2 * length + 2` exceeds any possible nesting. -/
def jsonValid (bs : List Nat) : Bool :=
  match scanValue (2 * bs.length + 2) (skipWS bs) with
  | some r => (skipWS r).isEmpty
  | none => false

/-- `WebsocketMessage` struct of `src/unnamed/part_000` lines 11-14: the
`Payload` field is `json.RawMessage`, i.e. raw bytes. -/
structure WebsocketMessage where
  type : String
  payload : List Nat

/-- A `CreateMessage` payload argument (`interface{}`): `nil`, a Go string
(as ASCII bytes), a `[]byte`, or any other value, represented by the outcome
of `json.Marshal` on it. -/
inductive GoPayload where
  | nilPayload : GoPayload
  | strPayload (s : List Nat) : GoPayload
  | bytesPayload (b : List Nat) : GoPayload
  | otherPayload (marshalled : Except Unit (List Nat)) : GoPayload

/-- `CreateMessage`: `nil` becomes the literal `null`; a string is passed
through `strconv.Quote`; a byte slice is kept verbatim when `json.Valid`
accepts it and otherwise quoted via `strconv.Quote(string(v))`; any other
value is `json.Marshal`ed, and only a marshalling failure produces an
error. The bytes `[110, 117, 108, 108]` are `null`. -/
def createMessage (msgType : String) (payload : GoPayload) :
    Except Unit WebsocketMessage :=
  match payload with
  | .nilPayload => .ok ⟨msgType, [110, 117, 108, 108]⟩
  | .strPayload s => .ok ⟨msgType, goQuote s⟩
  | .bytesPayload b => .ok ⟨msgType, if jsonValid b then b else goQuote b⟩
  | .otherPayload m =>
    match m with
    | .error e => .error e
    | .ok d => .ok ⟨msgType, d⟩

/-! ## Theorems for the claims -/

/-- C1 (amended): at most one connection handle exists at any instant (the
state is a single `Option Conn` field), and `StartVoiceChat` invoked while a
session is active returns the already-active error leaving the stored handle
unchanged, whatever the URL and dial outcomes; `StartChat`, however, performs
no already-active check: whatever handle is stored, a successful dial makes
it return success and store the new connection. -/
theorem claim_C1 :
    (∀ (c : Conn) (urlOk : Bool) (dial : Except Unit Conn),
        startVoiceChat (some c) urlOk dial = (.error .alreadyActive, some c))
    ∧ (∀ (ws : Option Conn) (c : Conn), startChat ws true (.ok c) = (.ok (), some c)) := by
  exact ⟨fun c urlOk dial => rfl, fun ws c => rfl⟩

/-- C1 counterexample: `StartChat` invoked while a session (connection 0) is
active, with a successful dial yielding connection 1, returns success — not
an already-active error — and replaces the stored handle. -/
theorem claim_C1_cex :
    startChat (some ⟨0⟩) true (.ok ⟨1⟩) = (.ok (), some ⟨1⟩)
    ∧ (some (Conn.mk 1) : Option Conn) ≠ some (Conn.mk 0) := by
  exact ⟨rfl, by decide⟩

/-- C3 (amended): `StopVoiceChat` with no active session returns success and
keeps the handle `nil`; with an active session, if sending the normal-closure
control frame fails, it returns that error immediately and the connection is
neither closed nor cleared (the handle stays set); only if the send succeeds
does it close the connection, clear the handle to `nil`, and return the
`Close` result. -/
theorem claim_C3 :
    (∀ (w c : Bool), stopVoiceChat none w c = (.ok (), none))
    ∧ (∀ (conn : Conn) (c : Bool),
        stopVoiceChat (some conn) false c = (.error .sendCloseFailed, some conn))
    ∧ (∀ (conn : Conn) (c : Bool),
        stopVoiceChat (some conn) true c =
          ((if c then .ok () else .error .closeFailed), none)) := by
  exact ⟨fun w c => rfl, fun conn c => rfl, fun conn c => rfl⟩

/-- C3 counterexample: a stop call that found a session but whose
close-frame send fails returns an error and leaves the stored handle
non-nil, contradicting "failure to send that frame is tolerated" and "after
any stop call that found a session, the stored connection handle is nil". -/
theorem claim_C3_cex :
    stopVoiceChat (some ⟨0⟩) false true = (.error .sendCloseFailed, some ⟨0⟩)
    ∧ (stopVoiceChat (some ⟨0⟩) false true).2 ≠ none := by
  exact ⟨rfl, by decide⟩

/-- C8 (amended): when no session exists, or the close-frame send and the
close both succeed, `StopVoiceChat` twice in a row returns success on both
calls and the second call finds the handle already `nil` (a no-op);
`StopVoiceChat` itself never invokes `OnDisconnect` (it has no handler), so
repeated stops cause no duplicate disconnect callback. -/
theorem claim_C8 (ws : Option Conn) (w1 c1 w2 c2 : Bool)
    (h : ws = none ∨ (w1 = true ∧ c1 = true)) :
    stopVoiceChat ws w1 c1 = (.ok (), none)
    ∧ stopVoiceChat (stopVoiceChat ws w1 c1).2 w2 c2 = (.ok (), none) := by
  rcases h with h | ⟨hw, hc⟩
  · subst h; exact ⟨rfl, rfl⟩
  · subst hw; subst hc
    cases ws with
    | none => exact ⟨rfl, rfl⟩
    | some c => exact ⟨rfl, rfl⟩

/-- C8 witness: both stop calls succeed on a concrete active session whose
transport operations succeed. -/
theorem claim_C8_witness :
    stopVoiceChat (some ⟨0⟩) true true = (.ok (), none)
    ∧ stopVoiceChat (stopVoiceChat (some ⟨0⟩) true true).2 false false = (.ok (), none) :=
  claim_C8 (some ⟨0⟩) true true false false (Or.inr ⟨rfl, rfl⟩)

/-- C8 counterexample: with an active session whose close-frame send fails,
calling stop twice in a row produces an error on both calls, contradicting
"calling it twice in a row produces no error on either call". -/
theorem claim_C8_cex :
    (stopVoiceChat (some ⟨1⟩) false true).1 = .error .sendCloseFailed
    ∧ (stopVoiceChat (stopVoiceChat (some ⟨1⟩) false true).2 false true).1 =
        .error .sendCloseFailed := by
  exact ⟨rfl, rfl⟩

/-- C9: every send operation fails with a not-connected error when no
session is active, leaving the stored handle unchanged and writing nothing;
with an active session it leaves the handle unchanged and writes exactly one
frame — binary for `SendAudioData` on raw bytes, the JSON-encoded
`ChatMessage{Type: "message", Content: message}` for `SendChatMessage`, and
the caller's JSON message for the `part_002` `SendAudioData`. -/
theorem claim_C9 :
    (∀ (data : List Nat) (w : Bool),
        sendAudioData none data w = (.error .notConnected, none, []))
    ∧ (∀ (c : Conn) (data : List Nat) (w : Bool),
        sendAudioData (some c) data w =
          ((if w then .ok () else .error .writeFailed), some c, [.binary data]))
    ∧ (∀ (m : String) (w : Bool),
        sendChatMessage none m w = (.error .notConnected, none, []))
    ∧ (∀ (c : Conn) (m : String) (w : Bool),
        sendChatMessage (some c) m w =
          ((if w then .ok () else .error .writeFailed), some c,
           [.jsonText (ChatMessage.toJson ⟨"message", m, ""⟩)]))
    ∧ (∀ (msg : Json) (w : Bool),
        sendAudioDataJson none msg w = (.error .notConnected, none, []))
    ∧ (∀ (c : Conn) (msg : Json) (w : Bool),
        sendAudioDataJson (some c) msg w =
          ((if w then .ok () else .error .writeFailed), some c, [.jsonText msg])) := by
  exact ⟨fun data w => rfl, fun c data w => rfl, fun m w => rfl,
         fun c m w => rfl, fun msg w => rfl, fun c msg w => rfl⟩

/-- The WAV output in explicit byte-list normal form. -/
theorem convertPCMtoWAV_eq (pcm : List Nat) :
    convertPCMtoWAV pcm =
      82 :: 73 :: 70 :: 70 ::
      ((pcm.length + 36) % 256) :: ((pcm.length + 36) / 256 % 256) ::
      ((pcm.length + 36) / 65536 % 256) :: ((pcm.length + 36) / 16777216 % 256) ::
      87 :: 65 :: 86 :: 69 :: 102 :: 109 :: 116 :: 32 ::
      16 :: 0 :: 0 :: 0 :: 1 :: 0 :: 1 :: 0 ::
      128 :: 62 :: 0 :: 0 :: 0 :: 125 :: 0 :: 0 ::
      2 :: 0 :: 16 :: 0 :: 100 :: 97 :: 116 :: 97 ::
      (pcm.length % 256) :: (pcm.length / 256 % 256) ::
      (pcm.length / 65536 % 256) :: (pcm.length / 16777216 % 256) :: pcm := by
  have h36 : pcm.length + 44 - 8 = pcm.length + 36 := by omega
  simp [convertPCMtoWAV, u32le, u16le, h36]

/-- Output length is the 44-byte header plus the PCM payload. -/
theorem wav_length (pcm : List Nat) : (convertPCMtoWAV pcm).length = 44 + pcm.length := by
  rw [convertPCMtoWAV_eq]; simp only [List.length_cons]; omega

/-- Bytes 0-3 spell `RIFF`. -/
theorem wav_riff (pcm : List Nat) : (convertPCMtoWAV pcm).take 4 = [82, 73, 70, 70] := by
  rw [convertPCMtoWAV_eq]; exact rfl

/-- Bytes 8-11 spell `WAVE`. -/
theorem wav_wave (pcm : List Nat) :
    ((convertPCMtoWAV pcm).drop 8).take 4 = [87, 65, 86, 69] := by
  rw [convertPCMtoWAV_eq]; exact rfl

/-- Bytes 36-39 spell `data`. -/
theorem wav_dataTag (pcm : List Nat) :
    ((convertPCMtoWAV pcm).drop 36).take 4 = [100, 97, 116, 97] := by
  rw [convertPCMtoWAV_eq]; exact rfl

/-- Bytes 12-15 spell `fmt` followed by a space. -/
theorem wav_fmtTag (pcm : List Nat) :
    ((convertPCMtoWAV pcm).drop 12).take 4 = [102, 109, 116, 32] := by
  rw [convertPCMtoWAV_eq]; exact rfl

/-- The little-endian u32 at offset 40 is the data size whenever it fits in
32 bits. -/
theorem wav_dataSize (pcm : List Nat) (h : pcm.length < 4294967296) :
    readU32le (convertPCMtoWAV pcm) 40 = pcm.length := by
  have hr : readU32le (convertPCMtoWAV pcm) 40
      = pcm.length % 256 + 256 * (pcm.length / 256 % 256)
        + 65536 * (pcm.length / 65536 % 256)
        + 16777216 * (pcm.length / 16777216 % 256) := by
    rw [convertPCMtoWAV_eq]; exact rfl
  rw [hr]; omega

/-- The little-endian u32 at offset 4 is `totalSize - 8 = dataSize + 36`
whenever that fits in 32 bits. -/
theorem wav_chunkSize (pcm : List Nat) (h : pcm.length + 36 < 4294967296) :
    readU32le (convertPCMtoWAV pcm) 4 = pcm.length + 36 := by
  have hr : readU32le (convertPCMtoWAV pcm) 4
      = (pcm.length + 36) % 256 + 256 * ((pcm.length + 36) / 256 % 256)
        + 65536 * ((pcm.length + 36) / 65536 % 256)
        + 16777216 * ((pcm.length + 36) / 16777216 % 256) := by
    rw [convertPCMtoWAV_eq]; exact rfl
  rw [hr]; omega

/-- The fmt sub-chunk size field (offset 16) is 16. -/
theorem wav_fmtSize (pcm : List Nat) : readU32le (convertPCMtoWAV pcm) 16 = 16 := by
  have hr : readU32le (convertPCMtoWAV pcm) 16 = 16 + 256 * 0 + 65536 * 0 + 16777216 * 0 := by
    rw [convertPCMtoWAV_eq]; exact rfl
  rw [hr]

/-- The audio-format field (offset 20) is 1 (PCM). -/
theorem wav_audioFormat (pcm : List Nat) : readU16le (convertPCMtoWAV pcm) 20 = 1 := by
  have hr : readU16le (convertPCMtoWAV pcm) 20 = 1 + 256 * 0 := by
    rw [convertPCMtoWAV_eq]; exact rfl
  rw [hr]

/-- The channel-count field (offset 22) is 1 (mono). -/
theorem wav_channels (pcm : List Nat) : readU16le (convertPCMtoWAV pcm) 22 = 1 := by
  have hr : readU16le (convertPCMtoWAV pcm) 22 = 1 + 256 * 0 := by
    rw [convertPCMtoWAV_eq]; exact rfl
  rw [hr]

/-- The sample-rate field (offset 24) is 16000. -/
theorem wav_sampleRate (pcm : List Nat) : readU32le (convertPCMtoWAV pcm) 24 = 16000 := by
  have hr : readU32le (convertPCMtoWAV pcm) 24 = 128 + 256 * 62 + 65536 * 0 + 16777216 * 0 := by
    rw [convertPCMtoWAV_eq]; exact rfl
  rw [hr]

/-- The byte-rate field (offset 28) is 32000. -/
theorem wav_byteRate (pcm : List Nat) : readU32le (convertPCMtoWAV pcm) 28 = 32000 := by
  have hr : readU32le (convertPCMtoWAV pcm) 28 = 0 + 256 * 125 + 65536 * 0 + 16777216 * 0 := by
    rw [convertPCMtoWAV_eq]; exact rfl
  rw [hr]

/-- The block-align field (offset 32) is 2. -/
theorem wav_blockAlign (pcm : List Nat) : readU16le (convertPCMtoWAV pcm) 32 = 2 := by
  have hr : readU16le (convertPCMtoWAV pcm) 32 = 2 + 256 * 0 := by
    rw [convertPCMtoWAV_eq]; exact rfl
  rw [hr]

/-- The bits-per-sample field (offset 34) is 16. -/
theorem wav_bits (pcm : List Nat) : readU16le (convertPCMtoWAV pcm) 34 = 16 := by
  have hr : readU16le (convertPCMtoWAV pcm) 34 = 16 + 256 * 0 := by
    rw [convertPCMtoWAV_eq]; exact rfl
  rw [hr]

/-- Everything after the 44-byte header is the PCM input unchanged. -/
theorem wav_tail (pcm : List Nat) : (convertPCMtoWAV pcm).drop 44 = pcm := by
  rw [convertPCMtoWAV_eq]; exact rfl

/-- C5: `ConvertPCMtoWAV` of the empty slice has exactly 44 bytes; for an
input of N bytes (with the u32 size fields in 32-bit range) the output has
44+N bytes, bytes 0-3 are `RIFF`, 8-11 are `WAVE`, 36-39 are `data`, the
little-endian u32 at offset 40 is N, the one at offset 4 is N+36
(totalSize-8), the fixed fields encode PCM format 1, 1 channel, sample rate
16000, byte rate 32000, block align 2, 16 bits per sample, and bytes 44
onward are the input unchanged. -/
theorem claim_C5 (pcm : List Nat) (h : pcm.length + 36 < 4294967296) :
    (convertPCMtoWAV []).length = 44
    ∧ (convertPCMtoWAV pcm).length = 44 + pcm.length
    ∧ (convertPCMtoWAV pcm).take 4 = [82, 73, 70, 70]
    ∧ ((convertPCMtoWAV pcm).drop 8).take 4 = [87, 65, 86, 69]
    ∧ ((convertPCMtoWAV pcm).drop 36).take 4 = [100, 97, 116, 97]
    ∧ readU32le (convertPCMtoWAV pcm) 40 = pcm.length
    ∧ readU32le (convertPCMtoWAV pcm) 4 = pcm.length + 36
    ∧ ((convertPCMtoWAV pcm).drop 12).take 4 = [102, 109, 116, 32]
    ∧ readU32le (convertPCMtoWAV pcm) 16 = 16
    ∧ readU16le (convertPCMtoWAV pcm) 20 = 1
    ∧ readU16le (convertPCMtoWAV pcm) 22 = 1
    ∧ readU32le (convertPCMtoWAV pcm) 24 = 16000
    ∧ readU32le (convertPCMtoWAV pcm) 28 = 32000
    ∧ readU16le (convertPCMtoWAV pcm) 32 = 2
    ∧ readU16le (convertPCMtoWAV pcm) 34 = 16
    ∧ (convertPCMtoWAV pcm).drop 44 = pcm := by
  exact ⟨rfl, wav_length pcm, wav_riff pcm, wav_wave pcm, wav_dataTag pcm,
         wav_dataSize pcm (by omega), wav_chunkSize pcm h, wav_fmtTag pcm,
         wav_fmtSize pcm, wav_audioFormat pcm, wav_channels pcm,
         wav_sampleRate pcm, wav_byteRate pcm, wav_blockAlign pcm,
         wav_bits pcm, wav_tail pcm⟩

/-- C5 witness: the data-size field of the encoding of the 3-byte input
`[1, 2, 3]`. -/
theorem claim_C5_witness : readU32le (convertPCMtoWAV [1, 2, 3]) 40 = 3 :=
  (claim_C5 [1, 2, 3] (by norm_num)).2.2.2.2.2.1

/-- C2 (amended): in the tagged-union receive loop of `src/unnamed/part_002`,
a frame that is discarded (non-JSON bytes, failed discriminant pre-parse,
failed typed decode, or unknown discriminant) leaves the trace exactly that
of the remaining stream — no disconnect callback, no termination — and a
frame that decodes is delivered to `OnResponse` followed by the rest of the
trace. (The flat-struct loop of `src/hume_ai_api.go` instead terminates on a
malformed frame; see the counterexample.) -/
theorem claim_C2 :
    (∀ (m : Option Json) (rest : List Event), handleFrame m = none →
        processVoice (Event.recv m :: rest) = processVoice rest)
    ∧ (∀ (m : Option Json) (r : VCResp) (rest : List Event), handleFrame m = some r →
        processVoice (Event.recv m :: rest) = HOut.response r :: processVoice rest) := by
  constructor
  · intro m rest h; simp [processVoice, h]
  · intro m r rest h; simp [processVoice, h]

/-- C2 witness: a non-JSON frame followed by a well-formed `chat_metadata`
frame produces exactly one delivered response and no disconnect. -/
theorem claim_C2_witness :
    processVoice [Event.recv none,
        Event.recv (some (Json.obj [("type", Json.str "chat_metadata"),
          ("chat_group_id", Json.str "g1"), ("chat_id", Json.str "c1")]))]
      = [HOut.response (VCResp.metadata ⟨"chat_metadata", "g1", "c1"⟩)] := by
  rw [claim_C2.1 none _ rfl,
      claim_C2.2 (some (Json.obj [("type", Json.str "chat_metadata"),
          ("chat_group_id", Json.str "g1"), ("chat_id", Json.str "c1")]))
        (VCResp.metadata ⟨"chat_metadata", "g1", "c1"⟩) [] rfl]
  exact rfl

/-- C2 counterexample: in the flat-struct receive loop of
`src/hume_ai_api.go` lines 558-578, a non-JSON frame invokes the disconnect
callback and terminates the loop, so the subsequent well-formed frame is
never delivered — contrary to the claim that decode failures never
terminate the session or invoke a disconnect callback. -/
theorem claim_C2_cex :
    processFlat [Event.recv none,
        Event.recv (some (Json.obj [("type", Json.str "chat_metadata")]))]
      = [FlatOut.disconnect DisconnectReason.parseError] := rfl

/-- C4: over any finite stream of read observations, the tagged-union
receive loop's trace is a list of `OnResponse` deliveries followed by
exactly one `OnDisconnect` — present precisely when the stream contains a
terminating observation (cancellation, or the read failure produced by peer
close, transport error, or the local stop closing the socket) — and nothing
follows it, because the loop returns immediately after invoking it. -/
theorem claim_C4 (evs : List Event) :
    ∃ (rs : List VCResp) (r : DisconnectReason),
      processVoice evs = rs.map HOut.response ++
          (if evs.any Event.isTerminal then [HOut.disconnect r] else [])
      ∧ (processVoice evs).countP HOut.isDisconnect =
          (if evs.any Event.isTerminal then 1 else 0) := by
  induction evs with
  | nil => exact ⟨[], .cancelled, rfl, rfl⟩
  | cons e rest ih =>
    obtain ⟨rs, r, heq, hcnt⟩ := ih
    cases e with
    | cancel =>
      refine ⟨[], .cancelled, ?_, ?_⟩ <;>
        simp [processVoice, Event.isTerminal, HOut.isDisconnect, List.countP_cons]
    | readErr =>
      refine ⟨[], .readError, ?_, ?_⟩ <;>
        simp [processVoice, Event.isTerminal, HOut.isDisconnect, List.countP_cons]
    | recv m =>
      cases hm : handleFrame m with
      | none =>
        refine ⟨rs, r, ?_, ?_⟩
        · simpa [processVoice, hm, Event.isTerminal] using heq
        · simpa [processVoice, hm, Event.isTerminal] using hcnt
      | some resp =>
        refine ⟨resp :: rs, r, ?_, ?_⟩
        · simp [processVoice, hm, Event.isTerminal, heq]
        · simp [processVoice, hm, Event.isTerminal, List.countP_cons,
                HOut.isDisconnect, hcnt]

/-- C6: a well-formed frame whose discriminant pre-parse yields a tag that is
none of `chat_metadata`, `assistant_message`, `assistant_end`, or
`audio_output` is dropped by the dispatcher, and the receive loop emits no
handler callback for it. -/
theorem claim_C6 (j : Json) (t : String) (rest : List Event)
    (ht : typeCheckJson j = .ok t)
    (h1 : t ≠ "chat_metadata") (h2 : t ≠ "assistant_message")
    (h3 : t ≠ "assistant_end") (h4 : t ≠ "audio_output") :
    dispatchVoice t j = none
    ∧ processVoice (Event.recv (some j) :: rest) = processVoice rest := by
  have hd : dispatchVoice t j = none := by simp [dispatchVoice, h1, h2, h3, h4]
  have hf : handleFrame (some j) = none := by simp [handleFrame, ht, hd]
  exact ⟨hd, by simp [processVoice, hf]⟩

/-- C6 witness: the frame with discriminant `something_new` produces no
handler invocation. -/
theorem claim_C6_witness :
    dispatchVoice "something_new" (Json.obj [("type", Json.str "something_new")]) = none
    ∧ processVoice [Event.recv (some (Json.obj [("type", Json.str "something_new")]))]
        = processVoice [] :=
  claim_C6 (Json.obj [("type", Json.str "something_new")]) "something_new" []
    rfl (by decide) (by decide) (by decide) (by decide)

/-- C7: for each known discriminant, JSON-encoding the typed value and
decoding it through the dispatcher's typed decoder reconstructs identical
field values (for `AudioResponse`, whose JSON-skipped `RawMessage` debugging
field is zero); in particular the frame
`{"type":"audio_output","id":"a1","index":3,"data":"QUJD"}` is delivered as
an audio variant with `id="a1"`, `index=3`, `data="QUJD"`. -/
theorem claim_C7 :
    (∀ c : ChatMetadata, ChatMetadata.fromJson (ChatMetadata.toJson c) = .ok c)
    ∧ (∀ a : AssistantMessage,
        AssistantMessage.fromJson (AssistantMessage.toJson a) = .ok a)
    ∧ (∀ e : AssistantEnd, AssistantEnd.fromJson (AssistantEnd.toJson e) = .ok e)
    ∧ (∀ a : AudioResponse, a.rawMessage = none →
        AudioResponse.fromJson (AudioResponse.toJson a) = .ok a)
    ∧ handleFrame (some (AudioResponse.toJson ⟨"audio_output", "a1", 3, "QUJD", "", none⟩))
        = some (VCResp.audio ⟨"audio_output", "a1", 3, "QUJD", "", none⟩) := by
  refine ⟨fun c => rfl, fun a => rfl, fun e => rfl, ?_, rfl⟩
  intro a ha
  obtain ⟨t, i, idx, d, s, rm⟩ := a
  have hrm : rm = none := ha
  subst hrm
  by_cases hs : s = ""
  · subst hs; exact rfl
  · simp [AudioResponse.toJson, AudioResponse.fromJson, getStringField, getIntField,
          lookupField, hs, Except.instMonad, Except.bind]

/-- C7 witness: the round trip at the spec's audio example. -/
theorem claim_C7_witness :
    AudioResponse.fromJson
        (AudioResponse.toJson ⟨"audio_output", "a1", 3, "QUJD", "", none⟩)
      = .ok ⟨"audio_output", "a1", 3, "QUJD", "", none⟩ :=
  claim_C7.2.2.2.1 ⟨"audio_output", "a1", 3, "QUJD", "", none⟩ rfl

/-- C10: `CreateMessage` on the one-character string payload containing only
the BEL control character (byte 7) succeeds and stores the Go-quoted bytes
`"\a"` (34, 92, 97, 34) as the payload — but Go's `\a` escape is not a legal
JSON escape, so that payload is not valid JSON, contradicting the claim
(and the code's own comment "Ensure it's a valid JSON string"). -/
theorem claim_C10 :
    createMessage "input_audio" (GoPayload.strPayload [7])
      = .ok ⟨"input_audio", [34, 92, 97, 34]⟩
    ∧ jsonValid [34, 92, 97, 34] = false :=
  ⟨rfl, rfl⟩

end Hume
